import Mathlib

/-!
Verification of the Record Filter Pipeline (`src/my_algorithm.py`).

The script is shallowly embedded: JSON values become the inductive `Json`
(numeric JSON values are modelled as integers, the only numeric values the
spec and its scenarios use), Python exceptions become the inductive `PyErr`
carried in `Except`, the filesystem becomes explicit state (`World` for the
fixed input locations read by the script, `FS` for the directories and files
it writes), and each Python function becomes a Lean definition of the same
name.  `json.load` of a file is modelled by storing, for each file of the
world, the outcome that parsing it produces (a `Json` value or a decode
error); the textual JSON parser itself is external library code and none of
the properties below depend on its internals.  `json.dump(
  data, outfile, indent=2)` is modelled by the serializer `dumpJson`, written
from the documented formatting of the Python `json` library with `indent=2`.
-/

/-- A JSON value as produced by `json.load`.  Numbers are modelled as
integers (all numeric values appearing in the spec are integers). -/
inductive Json where
  | null : Json
  | bool : Bool → Json
  | num : Int → Json
  | str : String → Json
  | arr : List Json → Json
  | obj : List (String × Json) → Json
deriving Repr

/-- Python exceptions that the script can raise.  `typeError` records the two
operand type names of an unsupported `>=` comparison; `attributeError`
records the type name of the object and the missing attribute. -/
inductive PyErr where
  | valueError (msg : String) : PyErr
  | typeError (lhsType rhsType : String) : PyErr
  | attributeError (objType attr : String) : PyErr
  | jsonDecodeError (msg : String) : PyErr
deriving Repr, DecidableEq

/-- Python type name of a JSON-decoded value, as it appears in exception
messages. -/
def typeName : Json → String
  | .null => "NoneType"
  | .bool _ => "bool"
  | .num _ => "int"
  | .str _ => "str"
  | .arr _ => "list"
  | .obj _ => "dict"

/-- Python `x.get(key, dflt)`: dictionaries look the key up (returning the
default when absent); any non-dictionary value has no `get` attribute and
raises `AttributeError`. -/
def pyGet (x : Json) (key : String) (dflt : Json) : Except PyErr Json :=
  match x with
  | .obj kvs => .ok ((kvs.lookup key).getD dflt)
  | _ => .error (.attributeError (typeName x) "get")

/-- Python numeric view of a value: `bool` is an `int` subclass, so `True`
and `False` compare as `1` and `0`. -/
def toNum : Json → Option Int
  | .num n => some n
  | .bool true => some 1
  | .bool false => some 0
  | _ => none

/-- Lexicographic (code-point) `>=` on strings, as Python compares `str`. -/
def strGe : List Char → List Char → Bool
  | _, [] => true
  | [], _ :: _ => false
  | a :: as, b :: bs => if a = b then strGe as bs else decide (b.val < a.val)

/-- Python `a >= b` on JSON-decoded values: numeric values (including bools)
compare numerically, strings compare lexicographically, and every other
combination raises `TypeError`.  (Python additionally compares two lists
element-wise; no record/threshold combination considered here compares two
lists, and that case is modelled as the `TypeError` of the remaining
mixed-type comparisons.) -/
def pyGe (a b : Json) : Except PyErr Bool :=
  match toNum a, toNum b with
  | some x, some y => .ok (decide (y ≤ x))
  | _, _ =>
    match a, b with
    | .str s, .str t => .ok (strGe s.toList t.toList)
    | _, _ => .error (.typeError (typeName a) (typeName b))

/-- The list comprehension inside `user_algorithm`:
`[item for item in data if item.get("value", 0) >= threshold]`, evaluated
left to right, the first exception propagating. -/
def filterRecs (threshold : Json) : List Json → Except PyErr (List Json)
  | [] => .ok []
  | item :: rest => do
    let v ← pyGet item "value" (.num 0)
    let keep ← pyGe v threshold
    let tail ← filterRecs threshold rest
    .ok (if keep then item :: tail else tail)

/-- `user_algorithm(data, threshold)`: requires `data` to be a list, raising
`ValueError("Expected input data to be a list of records.")` otherwise, then
keeps the records whose `value` field (default `0`) is `>= threshold`. -/
def user_algorithm (data threshold : Json) : Except PyErr Json :=
  match data with
  | .arr items => do
      let filtered ← filterRecs threshold items
      .ok (.arr filtered)
  | _ => .error (.valueError "Expected input data to be a list of records.")

/-- Split a path into its `/`-separated components. -/
def splitParts : List Char → List (List Char)
  | [] => [[]]
  | c :: rest =>
    let r := splitParts rest
    if c = '/' then [] :: r
    else
      match r with
      | [] => [[c]]
      | g :: gs => (c :: g) :: gs

/-- `os.path.basename`: the component after the last `/`. -/
def basename (p : String) : String :=
  String.mk ((splitParts p.toList).getLastD [])

/-- A filesystem entry under `/data/inputs` in the enumeration order of
`glob.glob("/data/inputs/**/*", recursive=True)`: a directory, or a file
whose JSON-parse outcome is the given value or decode error. -/
inductive Entry where
  | dir (path : String) : Entry
  | file (path : String) (doc : Except PyErr Json) : Entry
deriving Repr

/-- The fixed input locations the script reads: the optional
`/data/inputs/algoCustomData.json` (its parse outcome, `none` when the file
is absent) and the entries under `/data/inputs`. -/
structure World where
  config : Option (Except PyErr Json)
  entries : List Entry
deriving Repr

/-- The candidate test of `find_input_file`: regular files whose basename is
not `algoCustomData.json`. -/
def Entry.asCandidate : Entry → Option (String × Except PyErr Json)
  | .dir _ => none
  | .file p d => if basename p = "algoCustomData.json" then none else some (p, d)

/-- `find_input_file()`: the first candidate file in enumeration order, or
`None` when there is none. -/
def find_input_file (entries : List Entry) : Option (String × Except PyErr Json) :=
  entries.findSome? Entry.asCandidate

/-- `read_custom_params()`: the parse outcome of
`/data/inputs/algoCustomData.json` when that file exists (a decode error
propagates to the caller), and the empty dictionary when it does not. -/
def read_custom_params (w : World) : Except PyErr Json :=
  match w.config with
  | some doc => doc
  | none => .ok (.obj [])

/-- Lines 110–111 of `main`:
`custom_params = read_custom_params()` followed by
`threshold = custom_params.get("threshold", 10)`.  Either step can raise,
and neither is inside a `try` block. -/
def runThreshold (w : World) : Except PyErr Json := do
  let cp ← read_custom_params w
  pyGet cp "threshold" (.num 10)

/-- The output-side filesystem state: existing directories and files (path
with full content). -/
structure FS where
  dirs : List String
  files : List (String × String)
deriving Repr

/-- The proper ancestor chain of an absolute path, innermost last:
`"/data/outputs"` gives `["/data", "/data/outputs"]`. -/
def ancestors (p : String) : List String :=
  let parts := ((splitParts p.toList).map String.mk).filter (fun s => s ≠ "")
  (List.range parts.length).map
    (fun i => "/" ++ String.intercalate "/" (parts.take (i + 1)))

/-- `os.makedirs(p, exist_ok=True)`: create the missing directories of the
ancestor chain of `p`; directories that already exist are left alone and
cause no error. -/
def makedirs (dirs : List String) (p : String) : List String :=
  dirs ++ (ancestors p).filter (fun d => decide (d ∉ dirs))

/-- Writing a file: the new content replaces any previous content at that
path. -/
def setFile (files : List (String × String)) (p c : String) : List (String × String) :=
  (p, c) :: files.filter (fun kv => kv.1 ≠ p)

mutual

/-- `json.dump(data, outfile, indent=ind)` at nesting level `lvl`: Python's
pretty-printer with the default separators `(",", ": ")`, each element on
its own line indented by `ind` spaces per level, empty containers rendered
inline. -/
def dumpJson (ind : Nat) (lvl : Nat) : Json → String
  | .null => "null"
  | .bool true => "true"
  | .bool false => "false"
  | .num n => toString n
  | .str s => "\"" ++ s ++ "\""
  | .arr [] => "[]"
  | .arr (x :: xs) =>
      "[\n" ++ dumpArr ind (lvl + 1) (x :: xs) ++ "\n" ++
        String.mk (List.replicate (ind * lvl) ' ') ++ "]"
  | .obj [] => "\x7b\x7d"
  | .obj (kv :: kvs) =>
      "\x7b\n" ++ dumpObj ind (lvl + 1) (kv :: kvs) ++ "\n" ++
        String.mk (List.replicate (ind * lvl) ' ') ++ "\x7d"

/-- The elements of a non-empty array, one per line, comma-separated. -/
def dumpArr (ind : Nat) (lvl : Nat) : List Json → String
  | [] => ""
  | [x] => String.mk (List.replicate (ind * lvl) ' ') ++ dumpJson ind lvl x
  | x :: y :: xs =>
      String.mk (List.replicate (ind * lvl) ' ') ++ dumpJson ind lvl x ++ ",\n" ++
        dumpArr ind lvl (y :: xs)

/-- The key/value pairs of a non-empty object, one per line. -/
def dumpObj (ind : Nat) (lvl : Nat) : List (String × Json) → String
  | [] => ""
  | [(k, v)] =>
      String.mk (List.replicate (ind * lvl) ' ') ++ "\"" ++ k ++ "\": " ++
        dumpJson ind lvl v
  | (k, v) :: kv :: kvs =>
      String.mk (List.replicate (ind * lvl) ' ') ++ "\"" ++ k ++ "\": " ++
        dumpJson ind lvl v ++ ",\n" ++ dumpObj ind lvl (kv :: kvs)

end

/-- The fixed output directory `/data/outputs`. -/
def outputDir : String := "/data/outputs"

/-- The fixed output file `/data/outputs/results.json`. -/
def resultPath : String := "/data/outputs/results.json"

/-- A status line printed by the run.  Error lines are the ones the script
prints with an `[ERROR]` prefix; the rest carry an `[INFO]` prefix. -/
inductive LogLine where
  | usingThreshold (t : Json) : LogLine
  | foundFile (path : String) : LogLine
  | errNoInput : LogLine
  | errParse (path : String) (e : PyErr) : LogLine
  | errAlgorithm (e : PyErr) : LogLine
  | processed (kept total : Nat) : LogLine
  | resultsWritten (path : String) : LogLine
deriving Repr

/-- Whether a status line is printed with the `[ERROR]` prefix. -/
def LogLine.isError : LogLine → Bool
  | .errNoInput | .errParse _ _ | .errAlgorithm _ => true
  | _ => false

/-- `write_results(data)`: ensure `/data/outputs` exists (creating missing
ancestors, never failing when they already exist), then write `data` as
JSON with two-space indentation to `/data/outputs/results.json`, replacing
any previous content, and print the written-results line. -/
def write_results (fs : FS) (data : Json) : FS × LogLine :=
  (⟨makedirs fs.dirs outputDir, setFile fs.files resultPath (dumpJson 2 0 data)⟩,
    .resultsWritten resultPath)

/-- Python `len` restricted to the values `main` measures: `main` only calls
`len` on `data` and `processed_data` after `user_algorithm` succeeded, which
guarantees both are lists. -/
def pyLen : Json → Nat
  | .arr xs => xs.length
  | .obj kvs => kvs.length
  | .str s => s.length
  | _ => 0

/-- The outcome of one run of the script: a normal return with its printed
lines and final filesystem, or an uncaught exception (a crash with a raw
stack trace) with the filesystem as it stood when the exception escaped. -/
inductive RunOutcome where
  | ok (logs : List LogLine) (fs : FS) : RunOutcome
  | crash (e : PyErr) (fs : FS) : RunOutcome
deriving Repr

namespace Script

/-- `main()`: read the threshold (outside any `try`, so a failure there is
an uncaught crash), locate the input file, parse it, run `user_algorithm`
(these two steps are each wrapped in `try`/`except` that logs an `[ERROR]`
line and returns), and finally write the results. -/
def main (w : World) (fs : FS) : RunOutcome :=
  match runThreshold w with
  | .error e => .crash e fs
  | .ok threshold =>
    let l1 := LogLine.usingThreshold threshold
    match find_input_file w.entries with
    | none => .ok [l1, .errNoInput] fs
    | some (path, doc) =>
      let l2 := LogLine.foundFile path
      match doc with
      | .error e => .ok [l1, l2, .errParse path e] fs
      | .ok data =>
        match user_algorithm data threshold with
        | .error e => .ok [l1, l2, .errAlgorithm e] fs
        | .ok processed =>
          let l3 := LogLine.processed (pyLen processed) (pyLen data)
          let (fs2, l4) := write_results fs processed
          .ok [l1, l2, l3, l4] fs2

end Script

/-- Spec-side: an optional field value that is numeric or absent. -/
def isNumOrAbsent : Option Json → Bool
  | none => true
  | some (.num _) => true
  | some _ => false

/-- Spec-side: a record in the sense of the data model — a mapping whose
optional `value` field, when present, is numeric. -/
def ValidRecord : Json → Bool
  | .obj kvs => isNumOrAbsent (kvs.lookup "value")
  | _ => false

/-- Spec-side: the `value` field of a record, `0` when absent. -/
def recValue : Json → Int
  | .obj kvs =>
    match kvs.lookup "value" with
    | some (.num n) => n
    | _ => 0
  | _ => 0

/-- Spec-side: the inclusion predicate of the spec, `value >= threshold`. -/
def keepRec (t : Int) (item : Json) : Bool :=
  decide (t ≤ recValue item)

/-- Whether a value is a JSON array (a Python list). -/
def Json.isArr : Json → Bool
  | .arr _ => true
  | _ => false

/-- Whether a value is a JSON object (a Python dict). -/
def Json.isObj : Json → Bool
  | .obj _ => true
  | _ => false

/-- Whether a transform outcome is a raised `TypeError`. -/
def isTypeError : Except PyErr Json → Bool
  | .error (.typeError _ _) => true
  | _ => false

theorem pyGet_value_of_valid (item : Json) (h : ValidRecord item = true) :
    pyGet item "value" (.num 0) = .ok (.num (recValue item)) := by
  cases item with
  | obj kvs =>
    simp only [ValidRecord] at h
    cases hv : kvs.lookup "value" with
    | none => simp [pyGet, recValue, hv]
    | some v =>
      rw [hv] at h
      cases v <;> simp_all [pyGet, recValue, isNumOrAbsent]
  | null => simp [ValidRecord] at h
  | bool b => simp [ValidRecord] at h
  | num n => simp [ValidRecord] at h
  | str s => simp [ValidRecord] at h
  | arr xs => simp [ValidRecord] at h

theorem pyGe_num (a b : Int) : pyGe (.num a) (.num b) = .ok (decide (b ≤ a)) := rfl

theorem filterRecs_of_valid (t : Int) (items : List Json)
    (h : ∀ item ∈ items, ValidRecord item = true) :
    filterRecs (.num t) items = .ok (items.filter (keepRec t)) := by
  induction items with
  | nil => rfl
  | cons item rest ih =>
    have hi : ValidRecord item = true := h item (List.mem_cons_self item rest)
    have hr : ∀ x ∈ rest, ValidRecord x = true :=
      fun x hx => h x (List.mem_cons_of_mem _ hx)
    simp only [filterRecs, pyGet_value_of_valid item hi, pyGe_num, ih hr,
      List.filter_cons, keepRec, bind, Except.bind]

/-- Claim C1: on a list of records (mappings whose optional `value` field is
numeric) and a numeric threshold, `user_algorithm` returns exactly the
records whose `value` (0 when absent) is `>= threshold`, as the ordered,
unaltered subsequence of the input given by `List.filter`. -/
theorem claim1_filter_correct (items : List Json) (t : Int)
    (h : ∀ item ∈ items, ValidRecord item = true) :
    user_algorithm (.arr items) (.num t) = .ok (.arr (items.filter (keepRec t))) ∧
    (items.filter (keepRec t)).Sublist items := by
  refine ⟨?_, List.filter_sublist items⟩
  simp [user_algorithm, filterRecs_of_valid t items h, bind, Except.bind]

/-- Witness for C1 at a concrete list and threshold 5. -/
theorem claim1_filter_correct_witness :
    (∀ item ∈ [Json.obj [("value", Json.num 10)], Json.obj [],
        Json.obj [("value", Json.num 3)]], ValidRecord item = true) ∧
    (user_algorithm
        (.arr [Json.obj [("value", Json.num 10)], Json.obj [],
          Json.obj [("value", Json.num 3)]]) (.num 5) =
      .ok (.arr ([Json.obj [("value", Json.num 10)], Json.obj [],
        Json.obj [("value", Json.num 3)]].filter (keepRec 5))) ∧
    ([Json.obj [("value", Json.num 10)], Json.obj [],
        Json.obj [("value", Json.num 3)]].filter (keepRec 5)).Sublist
      [Json.obj [("value", Json.num 10)], Json.obj [],
        Json.obj [("value", Json.num 3)]]) :=
  ⟨by decide, claim1_filter_correct _ 5 (by decide)⟩

/-- Claim C6: the filter is idempotent — applying `user_algorithm` to its own
output with the same threshold returns that output unchanged. -/
theorem claim6_idempotent (items : List Json) (t : Int) (out : Json)
    (h : ∀ item ∈ items, ValidRecord item = true)
    (hrun : user_algorithm (.arr items) (.num t) = .ok out) :
    user_algorithm out (.num t) = .ok out := by
  have h1 : user_algorithm (.arr items) (.num t)
      = .ok (.arr (items.filter (keepRec t))) := by
    simp [user_algorithm, filterRecs_of_valid t items h, bind, Except.bind]
  rw [h1] at hrun
  injection hrun with hout
  subst hout
  have hvalid : ∀ x ∈ items.filter (keepRec t), ValidRecord x = true :=
    fun x hx => h x (List.mem_of_mem_filter hx)
  have hfix : (items.filter (keepRec t)).filter (keepRec t) = items.filter (keepRec t) :=
    List.filter_eq_self.mpr fun a ha => List.of_mem_filter ha
  simp [user_algorithm, filterRecs_of_valid t _ hvalid, hfix, bind, Except.bind]

/-- Witness for C6: the C1 witness list passed through the filter twice. -/
theorem claim6_idempotent_witness :
    user_algorithm (.arr [Json.obj [("value", Json.num 10)]]) (.num 5) =
      .ok (.arr [Json.obj [("value", Json.num 10)]]) :=
  claim6_idempotent [Json.obj [("value", Json.num 10)], Json.obj []] 5
    (.arr [Json.obj [("value", Json.num 10)]]) (by decide) rfl

/-- Claim C2 (counterexample): on a JSON object the transform raises a
`ValueError`, not a TypeError-class condition, and its message is
"Expected input data to be a list of records.". -/
theorem claim2_not_typeerror :
    user_algorithm (Json.obj []) (Json.num 10) =
      .error (.valueError "Expected input data to be a list of records.") ∧
    isTypeError (user_algorithm (Json.obj []) (Json.num 10)) = false :=
  ⟨rfl, rfl⟩

/-- Claim C2 (amended): for every parsed document that is not a list and
every threshold, `user_algorithm` raises
`ValueError("Expected input data to be a list of records.")`; the run
reports it with an `[ERROR]` line and terminates with the filesystem — in
particular the output file — untouched. -/
theorem claim2_rejects_nonlist (w : World) (fs : FS) (t : Json) (p : String) (d : Json)
    (hT : runThreshold w = .ok t)
    (hF : find_input_file w.entries = some (p, .ok d))
    (hD : d.isArr = false) :
    user_algorithm d t =
      .error (.valueError "Expected input data to be a list of records.") ∧
    Script.main w fs =
      .ok [.usingThreshold t, .foundFile p,
        .errAlgorithm (.valueError "Expected input data to be a list of records.")] fs ∧
    LogLine.isError
      (LogLine.errAlgorithm (.valueError "Expected input data to be a list of records."))
      = true := by
  have hu : user_algorithm d t =
      .error (.valueError "Expected input data to be a list of records.") := by
    cases d <;> simp_all [user_algorithm, Json.isArr]
  exact ⟨hu, by simp [Script.main, hT, hF, hu], rfl⟩

/-- Witness for C2 (amended) at a concrete object document. -/
theorem claim2_rejects_nonlist_witness :
    user_algorithm (Json.obj []) (Json.num 10) =
      .error (.valueError "Expected input data to be a list of records.") ∧
    Script.main ⟨none, [.file "/data/inputs/data.json" (.ok (Json.obj []))]⟩ ⟨[], []⟩ =
      .ok [.usingThreshold (Json.num 10), .foundFile "/data/inputs/data.json",
        .errAlgorithm (.valueError "Expected input data to be a list of records.")]
        ⟨[], []⟩ ∧
    LogLine.isError
      (LogLine.errAlgorithm (.valueError "Expected input data to be a list of records."))
      = true :=
  claim2_rejects_nonlist ⟨none, [.file "/data/inputs/data.json" (.ok (Json.obj []))]⟩
    ⟨[], []⟩ (Json.num 10) "/data/inputs/data.json" (Json.obj []) rfl rfl rfl

/-- Claim C3 (counterexample): with a malformed config file the run does not
catch and report the parse error — it ends in an uncaught crash carrying the
raw decode error (no output is written: the filesystem is unchanged). -/
theorem claim3_config_crash :
    Script.main
      ⟨some (.error (.jsonDecodeError "Expecting value: line 1 column 1 (char 0)")),
        [.file "/data/inputs/data.json" (.ok (.arr []))]⟩ ⟨[], []⟩ =
      .crash (.jsonDecodeError "Expecting value: line 1 column 1 (char 0)") ⟨[], []⟩ :=
  rfl

/-- Claim C3 (amended): if the config file exists but is not valid JSON, the
decode error propagates out of `main` uncaught — the run crashes with a raw
stack trace instead of logging an `[ERROR]` line — and no output file is
created (the filesystem is exactly the initial one). -/
theorem claim3_config_uncaught (w : World) (fs : FS) (e : PyErr)
    (h : w.config = some (.error e)) :
    Script.main w fs = .crash e fs := by
  simp [Script.main, runThreshold, read_custom_params, h, bind, Except.bind]

/-- Witness for C3 (amended) at a concrete malformed config. -/
theorem claim3_config_uncaught_witness :
    Script.main ⟨some (.error (.jsonDecodeError "Expecting value: line 2 column 1 (char 2)")), []⟩
      ⟨["/data"], []⟩ =
      .crash (.jsonDecodeError "Expecting value: line 2 column 1 (char 2)") ⟨["/data"], []⟩ :=
  claim3_config_uncaught _ _ _ rfl

/-- Claim C4: when no candidate input file exists (every entry is a
directory or is named `algoCustomData.json`), `find_input_file` returns the
`None` sentinel rather than raising, and the run returns normally with the
no-input message and an unchanged filesystem — no output file is created. -/
theorem claim4_no_input (w : World) (fs : FS) (t : Json)
    (hT : runThreshold w = .ok t)
    (hN : w.entries.all (fun e => (Entry.asCandidate e).isNone) = true) :
    find_input_file w.entries = none ∧
    Script.main w fs = .ok [.usingThreshold t, .errNoInput] fs := by
  have hf : find_input_file w.entries = none := by
    apply List.findSome?_eq_none_iff.mpr
    intro x hx
    exact Option.isNone_iff_eq_none.mp (List.all_eq_true.mp hN x hx)
  exact ⟨hf, by simp [Script.main, hT, hf]⟩

/-- Witness for C4: an input directory holding only a subdirectory and the
config file itself. -/
theorem claim4_no_input_witness :
    find_input_file
      [Entry.dir "/data/inputs/sub",
        Entry.file "/data/inputs/algoCustomData.json" (.ok (Json.obj []))] = none ∧
    Script.main
      ⟨none, [Entry.dir "/data/inputs/sub",
        Entry.file "/data/inputs/algoCustomData.json" (.ok (Json.obj []))]⟩ ⟨[], []⟩ =
      .ok [.usingThreshold (Json.num 10), .errNoInput] ⟨[], []⟩ :=
  claim4_no_input
    ⟨none, [Entry.dir "/data/inputs/sub",
      Entry.file "/data/inputs/algoCustomData.json" (.ok (Json.obj []))]⟩
    ⟨[], []⟩ (Json.num 10) rfl rfl

/-- Claim C5: with the config file absent, `read_custom_params` returns the
empty mapping and the threshold computed by `main` (lines 110–111) defaults
to 10. -/
theorem claim5_default_threshold (w : World) (h : w.config = none) :
    read_custom_params w = .ok (Json.obj []) ∧
    runThreshold w = .ok (Json.num 10) := by
  have h1 : read_custom_params w = .ok (Json.obj []) := by
    simp [read_custom_params, h]
  exact ⟨h1, by simp [runThreshold, h1, bind, Except.bind, pyGet, List.lookup]⟩

/-- Witness for C5 at the empty world. -/
theorem claim5_default_threshold_witness :
    read_custom_params ⟨none, []⟩ = .ok (Json.obj []) ∧
    runThreshold ⟨none, []⟩ = .ok (Json.num 10) :=
  claim5_default_threshold ⟨none, []⟩ rfl

/-- Claim C7: end to end, with config threshold 5 and input
`[record 10, record 3, record 5]` the run keeps records 10 and 5 in order,
creates the output directories, and writes exactly the two-space-indented
serialization of that array to `/data/outputs/results.json`. -/
theorem claim7_end_to_end :
    Script.main
      ⟨some (.ok (.obj [("threshold", .num 5)])),
        [.file "/data/inputs/input.json" (.ok (.arr
          [.obj [("value", .num 10)], .obj [("value", .num 3)],
            .obj [("value", .num 5)]]))]⟩
      ⟨[], []⟩ =
    .ok
      [.usingThreshold (.num 5), .foundFile "/data/inputs/input.json",
        .processed 2 3, .resultsWritten "/data/outputs/results.json"]
      ⟨["/data", "/data/outputs"],
        [("/data/outputs/results.json",
          dumpJson 2 0 (.arr [.obj [("value", .num 10)], .obj [("value", .num 5)]]))]⟩ ∧
    dumpJson 2 0 (.arr [.obj [("value", .num 10)], .obj [("value", .num 5)]]) =
      "[\n  \x7b\n    \"value\": 10\n  \x7d,\n  \x7b\n    \"value\": 5\n  \x7d\n]" :=
  ⟨rfl, rfl⟩

/-- Claim C8: `write_results` creates `/data/outputs` (and its ancestor)
when missing, leaves the directory list unchanged when both already exist
(no failure on an existing directory), and stores the two-space-indented
serialization of the document at the fixed output path regardless of — and
so overwriting — any prior content. -/
theorem claim8_write_results (fs : FS) (data : Json) :
    "/data" ∈ (write_results fs data).1.dirs ∧
    "/data/outputs" ∈ (write_results fs data).1.dirs ∧
    ("/data" ∈ fs.dirs → "/data/outputs" ∈ fs.dirs →
      (write_results fs data).1.dirs = fs.dirs) ∧
    List.lookup resultPath (write_results fs data).1.files =
      some (dumpJson 2 0 data) ∧
    (write_results fs data).2 = LogLine.resultsWritten resultPath := by
  have hanc : ancestors outputDir = ["/data", "/data/outputs"] := rfl
  have hdirs : (write_results fs data).1.dirs
      = fs.dirs ++ ["/data", "/data/outputs"].filter (fun d => decide (d ∉ fs.dirs)) := by
    simp only [write_results, makedirs, hanc]
  refine ⟨?_, ?_, ?_, ?_, rfl⟩
  · rw [hdirs]
    by_cases h1 : "/data" ∈ fs.dirs
    · exact List.mem_append_left _ h1
    · refine List.mem_append_right _ ?_
      simp [List.mem_filter, h1]
  · rw [hdirs]
    by_cases h2 : "/data/outputs" ∈ fs.dirs
    · exact List.mem_append_left _ h2
    · refine List.mem_append_right _ ?_
      simp [List.mem_filter, h2]
  · intro h1 h2
    rw [hdirs]
    simp [List.filter_cons, h1, h2]
  · simp [write_results, setFile, List.lookup]

/-- Witness for C8: writing over an existing directory tree and a stale
output file. -/
theorem claim8_write_results_witness :
    "/data" ∈ (write_results ⟨["/data", "/data/outputs"], [("/data/outputs/results.json", "stale")]⟩ (Json.arr [])).1.dirs ∧
    "/data/outputs" ∈ (write_results ⟨["/data", "/data/outputs"], [("/data/outputs/results.json", "stale")]⟩ (Json.arr [])).1.dirs ∧
    ("/data" ∈ FS.dirs ⟨["/data", "/data/outputs"], [("/data/outputs/results.json", "stale")]⟩ →
      "/data/outputs" ∈ FS.dirs ⟨["/data", "/data/outputs"], [("/data/outputs/results.json", "stale")]⟩ →
      (write_results ⟨["/data", "/data/outputs"], [("/data/outputs/results.json", "stale")]⟩ (Json.arr [])).1.dirs =
        FS.dirs ⟨["/data", "/data/outputs"], [("/data/outputs/results.json", "stale")]⟩) ∧
    List.lookup resultPath
      (write_results ⟨["/data", "/data/outputs"], [("/data/outputs/results.json", "stale")]⟩ (Json.arr [])).1.files =
      some (dumpJson 2 0 (Json.arr [])) ∧
    (write_results ⟨["/data", "/data/outputs"], [("/data/outputs/results.json", "stale")]⟩ (Json.arr [])).2 =
      LogLine.resultsWritten resultPath :=
  claim8_write_results ⟨["/data", "/data/outputs"], [("/data/outputs/results.json", "stale")]⟩
    (Json.arr [])

theorem filterRecs_error_of_bad (t : Json) (items : List Json)
    (h : ∃ x ∈ items, Json.isObj x = false) :
    ∃ e, filterRecs t items = .error e := by
  induction items with
  | nil => rcases h with ⟨x, hx, _⟩; cases hx
  | cons item rest ih =>
    rcases h with ⟨x, hx, hbad⟩
    rcases List.mem_cons.mp hx with rfl | hx2
    · cases x with
      | obj kvs => simp [Json.isObj] at hbad
      | null => exact ⟨_, rfl⟩
      | bool b => exact ⟨_, rfl⟩
      | num n => exact ⟨_, rfl⟩
      | str s => exact ⟨_, rfl⟩
      | arr xs => exact ⟨_, rfl⟩
    · cases hg : pyGet item "value" (.num 0) with
      | error e => exact ⟨e, by simp [filterRecs, hg, bind, Except.bind]⟩
      | ok v =>
        cases hge : pyGe v t with
        | error e => exact ⟨e, by simp [filterRecs, hg, hge, bind, Except.bind]⟩
        | ok keep =>
          rcases ih ⟨x, hx2, hbad⟩ with ⟨e, he⟩
          exact ⟨e, by simp [filterRecs, hg, hge, he, bind, Except.bind]⟩

/-- Claim C9: a parsed input list containing a non-mapping element makes
`user_algorithm` raise (the element has no `get` attribute, or an earlier
comparison fails); `main` catches the exception at the pipeline boundary,
logs it as the algorithm-failure `[ERROR]` line, and stops with the
filesystem — hence the output file — untouched. -/
theorem claim9_bad_element (w : World) (fs : FS) (t : Json) (p : String)
    (items : List Json)
    (hT : runThreshold w = .ok t)
    (hF : find_input_file w.entries = some (p, .ok (.arr items)))
    (hBad : ∃ x ∈ items, Json.isObj x = false) :
    ∃ e, user_algorithm (.arr items) t = .error e ∧
      Script.main w fs = .ok [.usingThreshold t, .foundFile p, .errAlgorithm e] fs ∧
      (LogLine.errAlgorithm e).isError = true := by
  rcases filterRecs_error_of_bad t items hBad with ⟨e, he⟩
  have hu : user_algorithm (.arr items) t = .error e := by
    simp [user_algorithm, he, bind, Except.bind]
  exact ⟨e, hu, by simp [Script.main, hT, hF, hu], rfl⟩

/-- Witness for C9: the single-element list `[3]`, whose element is an
integer rather than a mapping. -/
theorem claim9_bad_element_witness :
    ∃ e, user_algorithm (.arr [Json.num 3]) (Json.num 10) = .error e ∧
      Script.main ⟨none, [.file "/data/inputs/data.json" (.ok (.arr [Json.num 3]))]⟩
        ⟨[], []⟩ =
        .ok [.usingThreshold (Json.num 10), .foundFile "/data/inputs/data.json",
          .errAlgorithm e] ⟨[], []⟩ ∧
      (LogLine.errAlgorithm e).isError = true :=
  claim9_bad_element ⟨none, [.file "/data/inputs/data.json" (.ok (.arr [Json.num 3]))]⟩
    ⟨[], []⟩ (Json.num 10) "/data/inputs/data.json" [Json.num 3] rfl rfl
    ⟨Json.num 3, by simp, rfl⟩

/-- Claim C10: an empty input list is a successful run for every threshold:
`user_algorithm` returns the empty list and the run writes the JSON array
`[]` to the output file — unlike the no-input-file case, an output file is
created. -/
theorem claim10_empty_list (w : World) (fs : FS) (t : Json) (p : String)
    (hT : runThreshold w = .ok t)
    (hF : find_input_file w.entries = some (p, .ok (.arr []))) :
    user_algorithm (.arr []) t = .ok (.arr []) ∧
    dumpJson 2 0 (.arr []) = "[]" ∧
    Script.main w fs =
      .ok [.usingThreshold t, .foundFile p, .processed 0 0,
        .resultsWritten resultPath]
        ⟨makedirs fs.dirs outputDir, setFile fs.files resultPath "[]"⟩ ∧
    List.lookup resultPath (setFile fs.files resultPath "[]") = some "[]" := by
  refine ⟨rfl, rfl, ?_, ?_⟩
  · simp only [Script.main, hT, hF, user_algorithm, filterRecs, bind, Except.bind,
      write_results, pyLen]
    rfl
  · simp [setFile, List.lookup]

/-- Witness for C10: the empty input array with the default threshold. -/
theorem claim10_empty_list_witness :
    user_algorithm (.arr []) (Json.num 10) = .ok (.arr []) ∧
    dumpJson 2 0 (.arr []) = "[]" ∧
    Script.main ⟨none, [.file "/data/inputs/data.json" (.ok (.arr []))]⟩ ⟨[], []⟩ =
      .ok [.usingThreshold (Json.num 10), .foundFile "/data/inputs/data.json",
        .processed 0 0, .resultsWritten resultPath]
        ⟨makedirs ([] : List String) outputDir,
          setFile ([] : List (String × String)) resultPath "[]"⟩ ∧
    List.lookup resultPath (setFile ([] : List (String × String)) resultPath "[]") =
      some "[]" :=
  claim10_empty_list ⟨none, [.file "/data/inputs/data.json" (.ok (.arr []))]⟩
    ⟨[], []⟩ (Json.num 10) "/data/inputs/data.json" rfl rfl
